import Mathlib

/-!
Shallow embedding of `src/stages/fetch_data.py` (biobricks-ai/cebs).

The script scrapes a catalog of CEBS datasets (`get_html_table`), derives a
slug per dataset (`get_slug`), discovers the API-facing column list
(`get_columnList`), and fetches each dataset through a paginated JSON API
(`get_html_table_api`, with `fetch_api_data` as the per-page POST wrapper).

Text is modelled as `List Char`; Python exceptions as an error type threaded
through `Except`; the network as explicit response values handed to each
function (each function consumes exactly the responses the Python code
requests, in order).
-/

namespace Cebs

/-- Python exceptions that the modelled code paths can raise. -/
inductive PyErr : Type where
  /-- reading a local variable that was never bound -/
  | nameError : PyErr
  /-- attribute access on `None` -/
  | attributeError : PyErr
  /-- a `requests.exceptions.RequestException` escaping (after backoff retries) -/
  | requestException : PyErr
  /-- the `pandas` constructor mismatch between data width and column count -/
  | valueError : PyErr
  deriving DecidableEq, Repr

/-- Python text, modelled as a list of characters. -/
abbrev Str : Type := List Char

/-- Python `str.strip()` whitespace set (the characters relevant here). -/
def pyIsSpace (c : Char) : Bool :=
  c = ' ' || c = '\t' || c = '\n' || c = '\x0d' || c = '\x0b' || c = '\x0c'

/-- Python `s.strip()`: drop leading and trailing whitespace. -/
def pyStrip (s : Str) : Str :=
  ((s.dropWhile pyIsSpace).reverse.dropWhile pyIsSpace).reverse

/-- Python `hay.find(needle)` for a nonempty needle: index (from 0) of the
first occurrence of `needle` in `hay`, and `-1` when there is none. -/
def pyFind (needle : Str) : Str → Int
  | [] => if needle.isPrefixOf [] then 0 else -1
  | c :: t =>
    if needle.isPrefixOf (c :: t) then 0
    else if pyFind needle t = -1 then -1 else pyFind needle t + 1

/-- The fixed path marker `'search/'` used by `get_slug`. -/
def searchMarker : Str := ['s', 'e', 'a', 'r', 'c', 'h', '/']

/-- The function `get_slug(link)`:
`i = link.find('search/') + len('search/'); slug = link[i:]`.
`pyFind` is at least `-1`, so `i ≥ 6` and the Python slice `link[i:]` is
`List.drop` of a natural number. -/
def get_slug (link : Str) : Str :=
  let i : Int := pyFind searchMarker link + 7
  link.drop i.toNat

/-! ## HTML pages (BeautifulSoup view)

`get_html_table` and `get_columnList` look at a parsed page only through
`soup.find_all("table")`, `table.find_all("th")`, `table.find_all("tr")`,
`row.find_all("td")`, `row.find("td")`, `td.find("a")["href"]` and
`th.get('data-header')`.  The model keeps exactly that structure. -/

/-- A `<th>` element: its (already extracted) text and its optional
`data-header` attribute. -/
structure Th : Type where
  text : Str
  dataHeader : Option Str
  deriving DecidableEq, Repr

/-- A `<td>` element: its text and, when the cell contains an `<a>` tag
carrying an `href`, that link target. -/
structure Td : Type where
  text : Str
  anchorHref : Option Str
  deriving DecidableEq, Repr

/-- A `<tr>` element: its `<th>` cells and its `<td>` cells, in document
order (`find_all` on the row returns them in this order). -/
structure Tr : Type where
  ths : List Th
  tds : List Td
  deriving DecidableEq, Repr

/-- A `<table>` element as a list of rows; `table.find_all("th")` is the
concatenation of the rows' `th` lists, `table.find_all("tr")` is `trs`. -/
structure HtmlTable : Type where
  trs : List Tr
  deriving DecidableEq, Repr

/-- A `requests.get` response: HTTP status plus the tables BeautifulSoup
finds in the body (`soup.find_all("table")`). -/
structure HtmlResponse : Type where
  status : Nat
  tables : List HtmlTable
  deriving DecidableEq, Repr

/-- The dataframe `pd.DataFrame(rows, columns=headers)` builds: column
names and the row data. -/
structure Df : Type where
  headers : List Str
  rows : List (List Str)
  deriving DecidableEq, Repr

/-- The constructor `pd.DataFrame(rows, columns=headers)` for the row shapes produced
here: every row must have exactly one cell per column name, otherwise the
constructor raises (modelled as `ValueError`).  (Pandas pads ragged nested
lists whose maximum width matches; the rows built by `get_html_table` are
uniform, so that corner is not modelled.) -/
def pdDataFrame (rows : List (List Str)) (headers : List Str) :
    Except PyErr Df :=
  if rows.all (fun r => r.length = headers.length) then
    .ok ⟨headers, rows⟩
  else
    .error .valueError

/-- The extra column name `'Link'` appended when `get_name_links` is set. -/
def linkColumn : Str := ['L', 'i', 'n', 'k']

/-- The column names `get_html_table` builds: the stripped text of every
`<th>` of the table, with `'Link'` appended when `get_name_links` is
set. -/
def catalogHeaders (get_name_links : Bool) (table : HtmlTable) :
    List Str :=
  let headers0 := (table.trs.flatMap (fun tr => tr.ths)).map
    (fun th => pyStrip th.text)
  if get_name_links then headers0 ++ [linkColumn] else headers0

/-- One output row of `get_html_table`'s row loop: the stripped `<td>`
texts and — when `get_name_links` is set — the `href` of the first
cell's anchor, or the empty string when the row has no first cell or the
first cell has no anchor (`row.find("td")` returning `None` or
`name_cell.find("a")` returning `None`). -/
def catalogRow (get_name_links : Bool) (tr : Tr) : List Str :=
  let row_data := tr.tds.map (fun cell => pyStrip cell.text)
  if get_name_links then
    match tr.tds.head? with
    | some name_cell =>
      match name_cell.anchorHref with
      | some link => row_data ++ [link]
      | none => row_data ++ [[]]
    | none => row_data ++ [[]]
  else
    row_data

/-- The function `get_html_table(url, get_name_links)` given the response of its single
GET.  Returns `.ok none` where the Python function returns `None` (non-200
status, or no table on the page), `.ok (some df)` for its dataframe — the
first table's rows (header skipped) under the headers — and an error
where pandas would raise. -/
def get_html_table (resp : HtmlResponse) (get_name_links : Bool) :
    Except PyErr (Option Df) :=
  if resp.status = 200 then
    match resp.tables with
    | [] => .ok none
    | table :: _ =>
      match pdDataFrame ((table.trs.drop 1).map (catalogRow get_name_links))
          (catalogHeaders get_name_links table) with
      | .ok df => .ok (some df)
      | .error e => .error e
  else
    .ok none

/-- The function `get_columnList(url)` given the response of its single GET: the
`data-header` attribute of every `<th>` of the first table (`th.get`
yields `None`, i.e. `Option.none`, when the attribute is absent);
`None` on a non-200 status or when no table is found. -/
def get_columnList (resp : HtmlResponse) : Option (List (Option Str)) :=
  if resp.status = 200 then
    match resp.tables with
    | [] => none
    | table :: _ =>
      some ((table.trs.flatMap (fun tr => tr.ths)).map
        (fun th => th.dataHeader))
  else
    none

/-! ## Paginated API (`fetch_api_data`, `get_html_table_api`)

Records returned by the API are opaque (`α`).  A JSON body is read only
through `data.get("recordsTotal", 0)` and `data.get("data", [])`.  One
POST's outcome is either a delivered response (any status) or a
`requests` exception escaping (for `fetch_api_data`, the exception that
`backoff` re-raises after its bounded retries are exhausted; transient
failures that a retry absorbs are invisible here).  The network is a
function from the loop's POST index to that outcome. -/

/-- A JSON body, restricted to the two keys the script reads. -/
structure ApiJson (α : Type) : Type where
  recordsTotal? : Option Nat := none
  data? : Option (List α) := none
  deriving DecidableEq, Repr

/-- Outcome of one `requests.post`: a response with its HTTP status and
JSON body, or a `requests.exceptions.RequestException`. -/
inductive PostResult (α : Type) : Type where
  | resp (status : Nat) (json : ApiJson α)
  | raise
  deriving DecidableEq, Repr

/-- The function `fetch_api_data(api_url, payload, headers)`: the `backoff` decorator
re-raises the request exception once its `max_tries=10` are exhausted; a
delivered 200 response is returned; a delivered non-200 response is
logged and `None` is returned (there is no retry on bad status). -/
def fetch_api_data (α : Type) (r : PostResult α) :
    Except PyErr (Option (Nat × ApiJson α)) :=
  match r with
  | .raise => .error .requestException
  | .resp status json =>
    if status = 200 then .ok (some (status, json)) else .ok none

/-- The local state of `get_html_table_api`'s pagination loop, plus a
trace of the `start` offsets at which page POSTs were issued. -/
structure LoopState (α : Type) : Type where
  all_data : List α
  start : Nat
  posts : List Nat
  deriving DecidableEq, Repr

/-- The `batch_size = 1_000` constant. -/
def batch_size : Nat := 1000

/-- The `for i in range(N_iterations)` loop of `get_html_table_api`:
`remaining` iterations left, `i` the index of the next POST, `s` the
loop state.  Each iteration issues one POST (recorded in `posts` with its
`start` offset), runs it through `fetch_api_data`, and then, following
the source exactly:

* a re-raised request exception propagates out of the function;
* if `fetch_api_data` returned `None` (non-200 status), the subsequent
  `response.status_code` attribute access raises `AttributeError` on
  `None` — the `else: ... break` branch below it is unreachable;
* on a 200 response the page's records are appended to `all_data` and
  `start` advances by `batch_size`. -/
def apiLoop (α : Type) (pages : Nat → PostResult α) :
    Nat → Nat → LoopState α → Except PyErr (LoopState α)
  | 0, _, s => .ok s
  | remaining + 1, i, s =>
    let s1 : LoopState α := { s with posts := s.posts ++ [s.start] }
    match fetch_api_data α (pages i) with
    | .error e => .error e
    | .ok none => .error .attributeError
    | .ok (some response) =>
      if response.1 = 200 then
        apiLoop α pages remaining (i + 1)
          { all_data := s1.all_data ++ response.2.data?.getD []
            start := s1.start + batch_size
            posts := s1.posts }
      else
        .ok s1

/-- The function `get_html_table_api(api_url, slug, columnList, _token)`, with the
network supplied explicitly: `prelim` is the outcome of the initial
`requests.post` (which raises straight through if it fails), `pages` the
outcomes of the loop's POSTs in order.  Follows the source:

* a 200 preliminary response binds `records_total = data.get("recordsTotal", 0)`
  and `N_iterations = int(records_total / batch_size) + 1` (float division
  truncated, i.e. floor for the non-negative totals modelled here);
* a non-200 preliminary response only prints, leaving both unbound, so
  `range(N_iterations)` raises `NameError`;
* after the loop, `status` starts as `'Failed'`, is replaced by
  `'Incomplete (fetched/total)'` when fewer records than `records_total`
  were accumulated, and by `'Complete'` when exactly that many were.

Returns the final loop state (the accumulated records `all_data` plus the
POST trace) together with the status string. -/
def get_html_table_api_run (α : Type) (prelim : PostResult α)
    (pages : Nat → PostResult α) : Except PyErr (LoopState α × String) :=
  match prelim with
  | .raise => .error .requestException
  | .resp st json =>
    if st = 200 then
      let records_total := json.recordsTotal?.getD 0
      let N_iterations := records_total / batch_size + 1
      match apiLoop α pages N_iterations 0 ⟨[], 0, []⟩ with
      | .error e => .error e
      | .ok s =>
        let N_fetched := s.all_data.length
        let status0 : String := "Failed"
        let status1 : String :=
          if N_fetched < records_total then
            s!"Incomplete ({N_fetched}/{records_total})"
          else status0
        let status2 : String :=
          if N_fetched = records_total then "Complete" else status1
        .ok (s, status2)
    else
      .error .nameError

/-- The pair `(df, status)` that `get_html_table_api` returns: the
dataframe is `pd.DataFrame(all_data)`, kept as the record list itself. -/
def get_html_table_api (α : Type) (prelim : PostResult α)
    (pages : Nat → PostResult α) : Except PyErr (List α × String) :=
  (get_html_table_api_run α prelim pages).map (fun r => (r.1.all_data, r.2))

/-- The records a POST outcome carries: `data.get("data", [])` of a
delivered response's JSON, `[]` for an exception (nothing is read). -/
def pageBatch (α : Type) : PostResult α → List α
  | .resp _ json => json.data?.getD []
  | .raise => []

/-- The per-page record batches offered by the network for the loop's
POSTs `i, i+1, …, i+n-1`, in arrival order. -/
def receivedBatches (α : Type) (pages : Nat → PostResult α)
    (i n : Nat) : List (List α) :=
  (List.range n).map (fun k => pageBatch α (pages (i + k)))

/-! ## Concrete instances used by witnesses and counterexamples -/

/-- A catalog header row: two `<th>` cells, no `<td>`. -/
def sampleHeaderRow : Tr :=
  ⟨[⟨"Name".data, some "name".data⟩, ⟨"Group".data, none⟩], []⟩

/-- First catalog data row: two `<td>` cells, the first with a link. -/
def sampleBodyRow1 : Tr :=
  ⟨[], [⟨"A ".data, some "x/search/a".data⟩, ⟨"G1".data, none⟩]⟩

/-- Second catalog data row: two `<td>` cells, no link anywhere. -/
def sampleBodyRow2 : Tr :=
  ⟨[], [⟨" B".data, none⟩, ⟨"G2".data, none⟩]⟩

/-- A catalog table: one header row and two data rows. -/
def sampleTable : HtmlTable :=
  ⟨[sampleHeaderRow, sampleBodyRow1, sampleBodyRow2]⟩

/-- A successful catalog GET response carrying `sampleTable`. -/
def samplePage : HtmlResponse := ⟨200, [sampleTable]⟩

/-- A network on which every POST returns 200 with an empty record list. -/
def pagesEmpty : Nat → PostResult Nat :=
  fun _ => PostResult.resp 200 ⟨none, some []⟩

/-- Preliminary response reporting one record total (its own first page
of records is discarded by the code, which only reads `recordsTotal`). -/
def oneRecPrelim : PostResult Nat := PostResult.resp 200 ⟨some 1, some [7]⟩

/-- A network whose every POST returns 200 carrying no records at all,
while the preliminary request above reported one record. -/
def starvingPages : Nat → PostResult Nat :=
  fun _ => PostResult.resp 200 ⟨some 1, some []⟩

/-- Preliminary response reporting 1500 records. -/
def midPrelim : PostResult Nat := PostResult.resp 200 ⟨some 1500, some [1, 2]⟩

/-- A network whose first POST succeeds with two records and whose second
POST is delivered with HTTP status 500. -/
def failingSecondPage : Nat → PostResult Nat :=
  fun i => if i = 0 then PostResult.resp 200 ⟨some 1500, some [1, 2]⟩
           else PostResult.resp 500 ⟨none, none⟩

/-- Preliminary response reporting exactly 1000 records — one full page. -/
def kiloPrelim : PostResult Nat := PostResult.resp 200 ⟨some 1000, some []⟩

/-- A network whose every POST returns 200 with a single record `3`. -/
def singletonPages : Nat → PostResult Nat :=
  fun _ => PostResult.resp 200 ⟨none, some [3]⟩

/-- A network whose every POST returns 200 with the two records 1, 2. -/
def pairPages : Nat → PostResult Nat :=
  fun _ => PostResult.resp 200 ⟨none, some [1, 2]⟩

/-- A network whose every POST is delivered with HTTP status 500. -/
def badPages : Nat → PostResult Nat :=
  fun _ => PostResult.resp 500 ⟨none, none⟩

/-- The consistent network for a dataset `l`: the preliminary request and
every page POST succeed, `recordsTotal` is `l.length`, and the POST at
loop index `i` returns the `i`-th `batch_size`-record slice of `l`. -/
def slicePages (α : Type) (l : List α) : Nat → PostResult α :=
  fun i => PostResult.resp 200
    ⟨some l.length, some ((l.drop (i * batch_size)).take batch_size)⟩

/-! ## Helper lemmas -/

/-- Python `find` never returns less than `-1`. -/
theorem pyFind_ge (needle : Str) (hay : Str) : -1 ≤ pyFind needle hay := by
  induction hay with
  | nil =>
    simp only [pyFind]
    split <;> omega
  | cons c t ih =>
    simp only [pyFind]
    split
    · omega
    · split
      · omega
      · omega

/-- The slice index `i = link.find('search/') + 7` used by `get_slug`,
read as a natural number, is at least `6`. -/
theorem get_slug_index_ge (link : Str) :
    6 ≤ (pyFind searchMarker link + 7).toNat := by
  have h := pyFind_ge searchMarker link
  omega

/-- The function `get_slug` never lengthens its input. -/
theorem get_slug_length_le (link : Str) :
    (get_slug link).length ≤ link.length := by
  simp only [get_slug, List.length_drop]
  omega

/-- On a nonempty input, `get_slug` strictly shortens it (the slice index
is at least `6 > 0`). -/
theorem get_slug_length_lt (link : Str) (h : link ≠ []) :
    (get_slug link).length < link.length := by
  have h6 := get_slug_index_ge link
  have hlen : 0 < link.length := List.length_pos.mpr h
  simp only [get_slug, List.length_drop]
  omega

/-- Rows whose `<th>` lists are all empty contribute no header cells. -/
theorem flatMap_ths_nil (bs : List Tr) (h : ∀ tr ∈ bs, tr.ths = []) :
    bs.flatMap (fun tr => tr.ths) = [] := by
  induction bs with
  | nil => rfl
  | cons a as ih =>
    have ha : a.ths = [] := h a (by simp)
    have has : ∀ tr ∈ as, tr.ths = [] := fun tr htr => h tr (by simp [htr])
    simp [ha, ih has]

/-- A row built by `catalogRow` has one entry per `<td>`, plus one when
link extraction is enabled. -/
theorem catalogRow_length (b : Bool) (tr : Tr) :
    (catalogRow b tr).length = tr.tds.length + (if b then 1 else 0) := by
  cases b with
  | false => simp [catalogRow]
  | true =>
    rcases h : tr.tds.head? with _ | nc
    · simp [catalogRow, h]
    · rcases h2 : nc.anchorHref with _ | lnk <;> simp [catalogRow, h, h2]

/-- The list `catalogHeaders` has one entry per `<th>` of the table, plus one when
link extraction is enabled. -/
theorem catalogHeaders_length (b : Bool) (table : HtmlTable) :
    (catalogHeaders b table).length =
      (table.trs.flatMap (fun tr => tr.ths)).length +
        (if b then 1 else 0) := by
  cases b <;> simp [catalogHeaders]

/-- The wrapper `fetch_api_data` hands a response back only when its status is 200,
and that response carries the batch of the underlying POST outcome. -/
theorem fetch_api_data_some (α : Type) (r : PostResult α)
    (p : Nat × ApiJson α) (h : fetch_api_data α r = Except.ok (some p)) :
    p.1 = 200 ∧ pageBatch α r = p.2.data?.getD [] := by
  cases r with
  | raise => exact absurd h (by simp [fetch_api_data])
  | resp st json =>
    rw [fetch_api_data] at h
    split at h
    · rename_i hst
      simp only [Except.ok.injEq, Option.some.injEq] at h
      subst h
      exact ⟨hst, rfl⟩
    · simp at h

/-- One successful loop iteration: the page's records are appended, the
offset advances by `batch_size`, and one POST is recorded. -/
theorem apiLoop_step_success (α : Type) (pages : Nat → PostResult α)
    (m i : Nat) (s : LoopState α) (json : ApiJson α)
    (h : pages i = PostResult.resp 200 json) :
    apiLoop α pages (m + 1) i s =
      apiLoop α pages m (i + 1)
        ⟨s.all_data ++ json.data?.getD [], s.start + batch_size,
          s.posts ++ [s.start]⟩ := by
  simp [apiLoop, h, fetch_api_data]

/-- Splitting off the first of `m + 1` received batches. -/
theorem receivedBatches_succ (α : Type) (pages : Nat → PostResult α)
    (i m : Nat) :
    receivedBatches α pages i (m + 1) =
      pageBatch α (pages i) :: receivedBatches α pages (i + 1) m := by
  simp only [receivedBatches, List.range_succ_eq_map, List.map_cons,
    List.map_map, Nat.add_zero, Function.comp_def, Nat.succ_eq_add_one]
  refine congrArg _ (List.map_congr_left ?_)
  intro k _
  have harg : i + (k + 1) = i + 1 + k := by omega
  rw [harg]

/-- When the `n` pages starting at POST index `i` all arrive with status
200, the loop runs to the end: every batch is appended in arrival order,
the offset advances `n` times, and the POSTs are issued at offsets
`start, start + batch_size, …`. -/
theorem apiLoop_success (α : Type) (pages : Nat → PostResult α) :
    ∀ (n i : Nat) (s : LoopState α),
    (∀ k, k < n → ∃ json : ApiJson α, pages (i + k) = .resp 200 json) →
    apiLoop α pages n i s = Except.ok
      ⟨s.all_data ++ (receivedBatches α pages i n).flatten,
        s.start + n * batch_size,
        s.posts ++ (List.range n).map (fun k => s.start + k * batch_size)⟩
  | 0, i, s, _ => by
    simp [apiLoop, receivedBatches]
  | m + 1, i, s, h => by
    obtain ⟨json0, hj0⟩ := h 0 (Nat.succ_pos m)
    rw [Nat.add_zero] at hj0
    rw [apiLoop_step_success α pages m i s json0 hj0]
    have hshift : ∀ k, k < m →
        ∃ json : ApiJson α, pages (i + 1 + k) = .resp 200 json := by
      intro k hk
      have := h (k + 1) (by omega)
      rwa [show i + (k + 1) = i + 1 + k from by omega] at this
    rw [apiLoop_success α pages m (i + 1) _ hshift]
    rw [receivedBatches_succ]
    have hbatch : pageBatch α (pages i) = json0.data?.getD [] := by
      rw [hj0]; rfl
    have hstart : s.start + batch_size + m * batch_size =
        s.start + (m + 1) * batch_size := by ring
    have hposts : ∀ k : Nat, s.start + batch_size + k * batch_size =
        s.start + (k + 1) * batch_size := fun k => by ring
    simp only [Except.ok.injEq, LoopState.mk.injEq]
    refine ⟨?_, hstart, ?_⟩
    · rw [List.flatten_cons, hbatch, List.append_assoc]
    · simp only [hposts, List.range_succ_eq_map, List.map_cons,
        List.map_map, Function.comp_def, Nat.zero_mul, Nat.add_zero,
        Nat.succ_eq_add_one, List.append_assoc, List.singleton_append]

/-- Concatenating the consecutive `batch_size`-sized slices of `l` taken
by the first `n` pages yields the first `n * batch_size` elements. -/
theorem slice_flatten (α : Type) (l : List α) :
    ∀ n : Nat, ((List.range n).map
      (fun k => (l.drop (k * batch_size)).take batch_size)).flatten =
      l.take (n * batch_size)
  | 0 => by simp
  | m + 1 => by
    rw [List.range_succ, List.map_append, List.flatten_append,
      slice_flatten α l m]
    simp only [List.map_cons, List.map_nil, List.flatten_cons,
      List.flatten_nil, List.append_nil]
    rw [Nat.succ_mul]
    exact (List.take_add l (m * batch_size) batch_size).symm

/-- When the first `j` pages from POST index `i` arrive with status 200
but page `j` fails irrecoverably — the request exception is re-raised
after the retries, or the response is delivered with a non-200 status
(making `fetch_api_data` return `None` and the following
`response.status_code` access raise) — the loop raises instead of
returning. -/
theorem apiLoop_failure (α : Type) (pages : Nat → PostResult α) :
    ∀ (j n i : Nat) (s : LoopState α), j < n →
    (∀ k, k < j → ∃ json : ApiJson α, pages (i + k) = .resp 200 json) →
    (pages (i + j) = .raise ∨
      ∃ st json, st ≠ 200 ∧ pages (i + j) = .resp st json) →
    ∃ e, apiLoop α pages n i s = .error e
  | 0, n, i, s, hj, _, hfail => by
    obtain ⟨m, rfl⟩ : ∃ m, n = m + 1 := ⟨n - 1, by omega⟩
    rw [Nat.add_zero] at hfail
    rcases hfail with hr | ⟨st, json, hst, hr⟩
    · exact ⟨.requestException, by simp [apiLoop, hr, fetch_api_data]⟩
    · exact ⟨.attributeError, by simp [apiLoop, hr, fetch_api_data, hst]⟩
  | j + 1, n, i, s, hj, hsucc, hfail => by
    obtain ⟨m, rfl⟩ : ∃ m, n = m + 1 := ⟨n - 1, by omega⟩
    obtain ⟨json0, hj0⟩ := hsucc 0 (Nat.succ_pos j)
    rw [Nat.add_zero] at hj0
    rw [apiLoop_step_success α pages m i s json0 hj0]
    refine apiLoop_failure α pages j m (i + 1) _ (by omega) ?_ ?_
    · intro k hk
      have hx := hsucc (k + 1) (by omega)
      rwa [show i + (k + 1) = i + 1 + k from by omega] at hx
    · rwa [show i + (j + 1) = i + 1 + j from by omega] at hfail

/-! ## Claims about `get_slug` (C4, C5) -/

/-- C4 (counterexample): the link `"abcdefgh"` does not contain the
marker `'search/'`, yet `get_slug` does not return the full link: because
`find` returns `-1`, the slice starts at `-1 + 7 = 6` and the first six
characters are dropped, giving `"gh"`. -/
theorem get_slug_no_marker_counterexample :
    pyFind searchMarker "abcdefgh".data = -1 ∧
      get_slug "abcdefgh".data = "gh".data ∧
      get_slug "abcdefgh".data ≠ "abcdefgh".data := by
  refine ⟨by decide, by decide, by decide⟩

/-- C4 (amended): for every link in which the marker `'search/'` does not
occur (`find` returns `-1`), `get_slug` returns the link with its first
six characters dropped — not the full link. -/
theorem get_slug_no_marker (link : Str)
    (h : pyFind searchMarker link = -1) :
    get_slug link = link.drop 6 := by
  simp only [get_slug, h]
  rfl

/-- Witness for `get_slug_no_marker` at the concrete link `"abcdefgh"`. -/
theorem get_slug_no_marker_witness :
    pyFind searchMarker "abcdefgh".data = -1 ∧
      get_slug "abcdefgh".data = "abcdefgh".data.drop 6 :=
  ⟨by decide, get_slug_no_marker "abcdefgh".data (by decide)⟩

/-- C5 (counterexample): `get_slug` is not idempotent.  On the link
`"search/search/x"` one application yields `"search/x"`, but a second
application strips through the remaining marker and yields `"x"`. -/
theorem get_slug_not_idempotent_counterexample :
    get_slug "search/search/x".data = "search/x".data ∧
      get_slug (get_slug "search/search/x".data) = "x".data ∧
      get_slug (get_slug "search/search/x".data) ≠
        get_slug "search/search/x".data := by
  refine ⟨by decide, by decide, by decide⟩

/-- C5 (amended): `get_slug` is a pure function (determinism is
definitional), but it is not idempotent: whenever the derived slug is
nonempty, a second application produces a strictly shorter string,
different from the slug (the slice index is always at least `6`). -/
theorem get_slug_not_idempotent (link : Str) (h : get_slug link ≠ []) :
    (get_slug (get_slug link)).length < (get_slug link).length ∧
      get_slug (get_slug link) ≠ get_slug link := by
  have hlt := get_slug_length_lt (get_slug link) h
  refine ⟨hlt, fun heq => ?_⟩
  rw [heq] at hlt
  exact lt_irrefl _ hlt

/-- Witness for `get_slug_not_idempotent` at the link
`"search/search/x"`, whose slug `"search/x"` is nonempty. -/
theorem get_slug_not_idempotent_witness :
    get_slug "search/search/x".data ≠ [] ∧
      ((get_slug (get_slug "search/search/x".data)).length <
          (get_slug "search/search/x".data).length ∧
        get_slug (get_slug "search/search/x".data) ≠
          get_slug "search/search/x".data) :=
  ⟨by decide, get_slug_not_idempotent "search/search/x".data (by decide)⟩

/-! ## Claims about `get_html_table` / `get_columnList` failure paths (C8) -/

/-- C8: on a non-200 GET response, and likewise on a page without any
table, `get_html_table` and `get_columnList` both return `None` (no
retry exists: each consumes exactly one response by construction). -/
theorem html_failure_returns_none (resp : HtmlResponse) (b : Bool)
    (h : resp.status ≠ 200 ∨ resp.tables = []) :
    get_html_table resp b = .ok none ∧ get_columnList resp = none := by
  cases h with
  | inl h => simp [get_html_table, get_columnList, h]
  | inr h =>
    by_cases hs : resp.status = 200 <;>
      simp [get_html_table, get_columnList, hs, h]

/-- Witness for `html_failure_returns_none`: a 500 response (empty table
list) and, through a second application, a 200 response with no table. -/
theorem html_failure_returns_none_witness :
    (get_html_table ⟨500, []⟩ true = .ok none ∧
        get_columnList ⟨500, []⟩ = none) ∧
      (get_html_table ⟨200, []⟩ false = .ok none ∧
        get_columnList ⟨200, []⟩ = none) :=
  ⟨html_failure_returns_none ⟨500, []⟩ true (Or.inl (by decide)),
    html_failure_returns_none ⟨200, []⟩ false (Or.inr rfl)⟩

/-! ## Claim about the parsed catalog table's shape (C6) -/

/-- C6: for a 200 response whose first table has one header row carrying
all the `<th>` cells (say `H` of them) and `N` data rows of `H` `<td>`
cells each, `get_html_table` returns a dataframe with exactly `N` rows
and `H` columns — `H + 1` when link extraction is enabled (the extra
`'Link'` column, filled with the first cell's anchor target or the empty
string). -/
theorem get_html_table_shape (st : Nat) (tables : List HtmlTable)
    (b : Bool) (t : HtmlTable) (rest : List HtmlTable)
    (header : Tr) (body : List Tr)
    (hstatus : st = 200) (ht : tables = t :: rest)
    (htrs : t.trs = header :: body)
    (hbody : ∀ tr ∈ body, tr.ths = [])
    (hcells : ∀ tr ∈ body, tr.tds.length = header.ths.length) :
    ∃ df : Df, get_html_table ⟨st, tables⟩ b = Except.ok (some df) ∧
      df.rows.length = body.length ∧
      df.headers.length = header.ths.length + (if b then 1 else 0) := by
  subst hstatus ht
  have hflat : t.trs.flatMap (fun tr => tr.ths) = header.ths := by
    rw [htrs]
    simp [flatMap_ths_nil body hbody]
  have hhead : (catalogHeaders b t).length =
      header.ths.length + (if b then 1 else 0) := by
    rw [catalogHeaders_length, hflat]
  have hdrop : t.trs.drop 1 = body := by rw [htrs]; rfl
  have hguard : ((t.trs.drop 1).map (catalogRow b)).all
      (fun r => r.length = (catalogHeaders b t).length) = true := by
    rw [List.all_eq_true]
    intro r hr
    rcases List.mem_map.1 hr with ⟨tr, htr, rfl⟩
    rw [hdrop] at htr
    simp only [decide_eq_true_eq]
    rw [catalogRow_length, hcells tr htr, hhead]
  have hdf : pdDataFrame ((t.trs.drop 1).map (catalogRow b))
      (catalogHeaders b t) =
      .ok ⟨catalogHeaders b t, (t.trs.drop 1).map (catalogRow b)⟩ := by
    rw [pdDataFrame, if_pos hguard]
  refine ⟨⟨catalogHeaders b t, (t.trs.drop 1).map (catalogRow b)⟩, ?_, ?_, ?_⟩
  · simp only [get_html_table]
    rw [if_pos trivial, hdf]
  · simp [hdrop]
  · exact hhead

/-- Witness for `get_html_table_shape`: the two-column, two-row
`samplePage`, with link extraction enabled and disabled. -/
theorem get_html_table_shape_witness :
    (∃ df : Df, get_html_table samplePage true = Except.ok (some df) ∧
        df.rows.length = 2 ∧ df.headers.length = 3) ∧
      (∃ df : Df, get_html_table samplePage false = Except.ok (some df) ∧
        df.rows.length = 2 ∧ df.headers.length = 2) :=
  ⟨get_html_table_shape 200 [sampleTable] true sampleTable []
      sampleHeaderRow [sampleBodyRow1, sampleBodyRow2] rfl rfl rfl
      (by decide) (by decide),
    get_html_table_shape 200 [sampleTable] false sampleTable []
      sampleHeaderRow [sampleBodyRow1, sampleBodyRow2] rfl rfl rfl
      (by decide) (by decide)⟩

/-! ## Claims about `get_html_table_api` (C1, C2, C3, C7, C9, C10) -/

/-- C9: when the preliminary POST of `get_html_table_api` is delivered
with a non-200 status, the function raises instead of returning a
`(dataframe, status)` pair: the failure branch only prints, so
`records_total` and `N_iterations` are never bound and the loop header
`range(N_iterations)` raises `NameError`. -/
theorem api_prelim_failure_raises (α : Type) (st : Nat)
    (json : ApiJson α) (pages : Nat → PostResult α) (h : st ≠ 200) :
    get_html_table_api α (.resp st json) pages =
      .error .nameError := by
  simp [get_html_table_api, get_html_table_api_run, h, Except.map]

/-- Witness for `api_prelim_failure_raises`: a 500 preliminary
response. -/
theorem api_prelim_failure_raises_witness :
    (500 ≠ 200) ∧
      get_html_table_api Nat (.resp 500 ⟨none, none⟩) pagesEmpty =
        .error .nameError :=
  ⟨by decide,
    api_prelim_failure_raises Nat 500 ⟨none, none⟩ pagesEmpty (by decide)⟩

/-- C2 (code bug): the source plainly intends a failed page POST to end
the loop early and still return the accumulated records (the
`else: print(...); break` branch), but `fetch_api_data` returns `None`
for a delivered non-200 response, so `response.status_code` raises
`AttributeError` and `get_html_table_api` returns nothing at all.  Here:
total 1500, first page delivers two records, second page is delivered
with status 500 — the function raises instead of returning the two
records. -/
theorem api_page_failure_raises :
    get_html_table_api Nat midPrelim failingSecondPage =
      .error .attributeError := rfl

/-- C10: whenever `get_html_table_api` returns normally and the
accumulated record count exceeds the reported total, the status is the
literal `'Failed'`: only the strictly-fewer and the equal comparisons
replace the initial `'Failed'`. -/
theorem api_overfetch_status_failed (α : Type) (st : Nat)
    (json : ApiJson α) (pages : Nat → PostResult α) (l : List α)
    (stat : String)
    (h : get_html_table_api α (.resp st json) pages =
      Except.ok (l, stat))
    (hgt : json.recordsTotal?.getD 0 < l.length) :
    stat = "Failed" := by
  by_cases hst : st = 200
  · subst hst
    simp only [get_html_table_api, get_html_table_api_run] at h
    rw [if_pos trivial] at h
    cases hl : apiLoop α pages
        (json.recordsTotal?.getD 0 / batch_size + 1) 0 ⟨[], 0, []⟩ with
    | error e => rw [hl] at h; simp [Except.map] at h
    | ok sf =>
      rw [hl] at h
      simp only [Except.map, Except.ok.injEq, Prod.mk.injEq] at h
      obtain ⟨hl1, hl2⟩ := h
      have h1 : ¬ (sf.all_data.length < json.recordsTotal?.getD 0) := by
        rw [hl1]; omega
      have h2 : ¬ (sf.all_data.length = json.recordsTotal?.getD 0) := by
        rw [hl1]; omega
      rw [← hl2]
      simp [h1, h2]
  · simp [get_html_table_api, get_html_table_api_run, hst, Except.map] at h

/-- Witness for `api_overfetch_status_failed`: one record reported, a
single page delivering two records — the run returns with status
`'Failed'`. -/
theorem api_overfetch_status_failed_witness :
    (get_html_table_api Nat (.resp 200 ⟨some 1, some []⟩) pairPages =
        Except.ok ([1, 2], "Failed")) ∧
      (1 < 2) ∧ "Failed" = "Failed" :=
  ⟨rfl, by decide,
    api_overfetch_status_failed Nat 200 ⟨some 1, some []⟩ pairPages
      [1, 2] "Failed" rfl (by decide)⟩

/-- C7: at every point of the pagination loop — every reachable loop
state is the `.ok` result of running `apiLoop` with some iteration
budget — the accumulator extends the initial records by exactly the
received batches, concatenated in arrival order, so its length never
exceeds the initial length plus the sum of the per-page record counts
actually received. -/
theorem apiLoop_accumulator (α : Type) (pages : Nat → PostResult α) :
    ∀ (n i : Nat) (s s' : LoopState α),
    apiLoop α pages n i s = Except.ok s' →
    s'.all_data = s.all_data ++ (receivedBatches α pages i n).flatten ∧
    s'.all_data.length ≤ s.all_data.length +
      ((receivedBatches α pages i n).map List.length).sum
  | 0, i, s, s', h => by
    simp only [apiLoop, Except.ok.injEq] at h
    subst h
    simp [receivedBatches]
  | n + 1, i, s, s', h => by
    cases hf : fetch_api_data α (pages i) with
    | error e => simp [apiLoop, hf] at h
    | ok o =>
      cases o with
      | none => simp [apiLoop, hf] at h
      | some p =>
        obtain ⟨h200, hbatch⟩ := fetch_api_data_some α (pages i) p hf
        have h' : apiLoop α pages n (i + 1)
            ⟨s.all_data ++ p.2.data?.getD [], s.start + batch_size,
              s.posts ++ [s.start]⟩ = Except.ok s' := by
          simpa [apiLoop, hf, h200] using h
        obtain ⟨ih1, ih2⟩ := apiLoop_accumulator α pages n (i + 1) _ s' h'
        rw [receivedBatches_succ]
        constructor
        · rw [ih1, List.flatten_cons, hbatch, List.append_assoc]
        · simp only [List.map_cons, List.sum_cons, List.length_append]
            at ih2 ⊢
          rw [hbatch]
          omega

/-- Witness for `apiLoop_accumulator`: two loop iterations over a
network delivering two records per page, starting from the empty
state. -/
theorem apiLoop_accumulator_witness :
    (apiLoop Nat pairPages 2 0 ⟨[], 0, []⟩ =
        Except.ok ⟨[1, 2, 1, 2], 2000, [0, 1000]⟩) ∧
      ([1, 2, 1, 2] : List Nat) =
          [] ++ (receivedBatches Nat pairPages 0 2).flatten ∧
        ([1, 2, 1, 2] : List Nat).length ≤ ([] : List Nat).length +
          ((receivedBatches Nat pairPages 0 2).map List.length).sum :=
  ⟨rfl, apiLoop_accumulator Nat pairPages 2 0 ⟨[], 0, []⟩
    ⟨[1, 2, 1, 2], 2000, [0, 1000]⟩ rfl⟩

/-- C3 (counterexample): for a reported total of 1000 records and page
size 1000, `ceil(total / page size) = 1`, yet the loop issues two POSTs
(at offsets 0 and 1000): `N_iterations = int(total / batch_size) + 1` is
`floor + 1`, not `ceil`. -/
theorem api_request_count_counterexample :
    get_html_table_api_run Nat kiloPrelim pagesEmpty =
      Except.ok (⟨[], 2000, [0, 1000]⟩, "Incomplete (0/1000)") ∧
    ([0, 1000] : List Nat).length ≠ (1000 + batch_size - 1) / batch_size :=
  ⟨rfl, by decide⟩

/-- C3 (amended): when every page POST is delivered with status 200, the
pagination loop issues exactly `total / batch_size + 1` POSTs (one more
than `ceil` whenever the total is a multiple of the page size, including
zero), at offsets `0, batch_size, 2 * batch_size, …`. -/
theorem api_request_count (α : Type) (T : Nat) (d : Option (List α))
    (pages : Nat → PostResult α)
    (h : ∀ k, ∃ json : ApiJson α, pages k = .resp 200 json) :
    ∃ (sf : LoopState α) (stat : String),
      get_html_table_api_run α (.resp 200 ⟨some T, d⟩) pages =
        Except.ok (sf, stat) ∧
      sf.posts = (List.range (T / batch_size + 1)).map
        (fun k => k * batch_size) ∧
      sf.posts.length = T / batch_size + 1 := by
  have hloop := apiLoop_success α pages (T / batch_size + 1) 0 ⟨[], 0, []⟩
    (fun k _ => h (0 + k))
  cases hr : get_html_table_api_run α (.resp 200 ⟨some T, d⟩) pages with
  | error e =>
    simp only [get_html_table_api_run, Option.getD_some] at hr
    rw [if_pos trivial, hloop] at hr
    simp at hr
  | ok pr =>
    simp only [get_html_table_api_run, Option.getD_some] at hr
    rw [if_pos trivial, hloop] at hr
    simp only [Except.ok.injEq] at hr
    refine ⟨pr.1, pr.2, rfl, ?_, ?_⟩
    · rw [← hr]
      simp [Nat.zero_add]
    · rw [← hr]
      simp

/-- Witness for `api_request_count`: total 1000, every POST delivered
with status 200 — the run issues POSTs at offsets 0 and 1000, i.e.
`1000 / batch_size + 1 = 2` of them. -/
theorem api_request_count_witness :
    ∃ (sf : LoopState Nat) (stat : String),
      get_html_table_api_run Nat (.resp 200 ⟨some 1000, some []⟩)
          singletonPages = Except.ok (sf, stat) ∧
      sf.posts = (List.range (1000 / batch_size + 1)).map
        (fun k => k * batch_size) ∧
      sf.posts.length = 1000 / batch_size + 1 :=
  api_request_count Nat 1000 (some []) singletonPages
    (fun _ => ⟨⟨none, some [3]⟩, rfl⟩)

/-- C1 (counterexample): a run in which the preliminary request and
every page request succeed with status 200 (the network is
`starvingPages`, all of whose responses have status 200), with a
reported total of one record but empty page bodies: the accumulated
count is 0 ≠ 1 and the returned status is `'Incomplete (0/1)'`, not
`'Complete'`. -/
theorem api_complete_claim_counterexample :
    get_html_table_api Nat oneRecPrelim starvingPages =
      Except.ok ([], "Incomplete (0/1)") ∧
    ("Incomplete (0/1)" : String) ≠ "Complete" :=
  ⟨rfl, by decide⟩

/-- C1 (amended): over a consistent `T`-record dataset — every page POST
is delivered with status 200 and carries the next `batch_size`-record
slice — the run accumulates exactly the `T` reported records and returns
status `'Complete'`.  And when some page POST fails irrecoverably (the
retries are exhausted and the exception is re-raised, or a non-200
response makes `fetch_api_data` return `None`), the function raises an
exception instead of returning: no `'Incomplete'` status is produced by
a page failure. -/
theorem api_pagination_statuses (α : Type) (T : Nat) (l : List α)
    (hl : l.length = T) (d0 d1 : Option (List α))
    (pages : Nat → PostResult α)
    (hpages : ∀ i, pages i = .resp 200
      ⟨some T, some ((l.drop (i * batch_size)).take batch_size)⟩)
    (pages2 : Nat → PostResult α) (j : Nat)
    (hj : j < T / batch_size + 1)
    (hsucc : ∀ k, k < j → ∃ json : ApiJson α, pages2 k = .resp 200 json)
    (hfail : pages2 j = .raise ∨
      ∃ st json, st ≠ 200 ∧ pages2 j = .resp st json) :
    get_html_table_api α (.resp 200 ⟨some T, d0⟩) pages =
      Except.ok (l, "Complete") ∧
    ∃ e, get_html_table_api α (.resp 200 ⟨some T, d1⟩) pages2 =
      Except.error e := by
  constructor
  · have hloop := apiLoop_success α pages (T / batch_size + 1) 0
      ⟨[], 0, []⟩ (fun k _ => ⟨_, hpages (0 + k)⟩)
    have hrecv : (receivedBatches α pages 0 (T / batch_size + 1)).flatten
        = l := by
      have hmap : receivedBatches α pages 0 (T / batch_size + 1) =
          (List.range (T / batch_size + 1)).map
            (fun k => (l.drop (k * batch_size)).take batch_size) := by
        apply List.map_congr_left
        intro k _
        rw [Nat.zero_add, hpages k]
        rfl
      rw [hmap, slice_flatten]
      apply List.take_of_length_le
      have hbs : T ≤ (T / batch_size + 1) * batch_size := by
        simp only [batch_size]
        omega
      omega
    simp only [get_html_table_api, get_html_table_api_run,
      Option.getD_some]
    rw [if_pos trivial, hloop]
    simp only [Except.map, List.nil_append]
    rw [hrecv, hl]
    simp
  · obtain ⟨e, he⟩ := apiLoop_failure α pages2 j (T / batch_size + 1) 0
      ⟨[], 0, []⟩ hj
      (fun k hk => by rw [Nat.zero_add]; exact hsucc k hk)
      (by rw [Nat.zero_add]; exact hfail)
    refine ⟨e, ?_⟩
    simp only [get_html_table_api, get_html_table_api_run,
      Option.getD_some]
    rw [if_pos trivial, he]
    simp [Except.map]

/-- Witness for `api_pagination_statuses`: the two-record dataset
`[10, 20]` served consistently by `slicePages` yields
`([10, 20], 'Complete')`; the same total with every POST delivered at
status 500 (`badPages`, failing already at loop index 0) makes the
function raise. -/
theorem api_pagination_statuses_witness :
    (get_html_table_api Nat (.resp 200 ⟨some 2, some [10, 20]⟩)
        (slicePages Nat [10, 20]) = Except.ok ([10, 20], "Complete")) ∧
      ∃ e, get_html_table_api Nat (.resp 200 ⟨some 2, none⟩) badPages =
        Except.error e :=
  api_pagination_statuses Nat 2 [10, 20] rfl (some [10, 20]) none
    (slicePages Nat [10, 20]) (fun i => rfl) badPages 0 (by decide)
    (fun k hk => absurd hk (Nat.not_lt_zero k))
    (Or.inr ⟨500, ⟨none, none⟩, by decide, rfl⟩)

end Cebs
